import Mathlib

/-!
Verification of the in-memory typed dataframe core (`DataFrame` and its
operation set from `main.rs`).  Machine integers are modelled as `Int`
(the source only parses and stores them), 64-bit floats as rationals `ℚ`
(the source only parses, widens, sums and divides them), a Rust panic as
`Option.none`, and a recoverable `Err` as an `Except.error` carrying the
source's message string.  Methods taking `&mut self` are embedded as
state transformers that also return the receiver's state after the call.
-/

deriving instance DecidableEq for Except

namespace Pandas

/-- Cell values: the closed scalar union `ColumnVal` of the source
(`One` text, `Two` boolean, `Three` float modelled as `ℚ`, `Four`
64-bit integer modelled as `ℤ`). -/
inductive ColumnVal where
  | One : String → ColumnVal
  | Two : Bool → ColumnVal
  | Three : ℚ → ColumnVal
  | Four : ℤ → ColumnVal
deriving DecidableEq, Repr

/-- The frame: parallel label and kind-code lists plus row storage,
mirroring `struct DataFrame { labels, types, rows }`. -/
structure DataFrame where
  labels : List String
  types : List ℕ
  rows : List (List ColumnVal)
deriving DecidableEq, Repr

/-- Decimal-digit accumulator used to model the standard library parses. -/
def parseDigitsAux (acc : ℕ) : List Char → Option ℕ
  | [] => some acc
  | c :: cs => if c.isDigit then parseDigitsAux (acc * 10 + (c.toNat - 48)) cs else none

/-- A nonempty all-digit character list evaluates to its decimal value;
anything else fails. -/
def parseDigits : List Char → Option ℕ
  | [] => none
  | cs => parseDigitsAux 0 cs

/-- Model of Rust `str::parse::<i64>`: optional sign, decimal digits,
64-bit signed range check. -/
def parseI64 (s : String) : Option ℤ :=
  match s.data with
  | '-' :: rest =>
    (parseDigits rest).bind (fun n =>
      if n ≤ 9223372036854775808 then some (-(n : ℤ)) else none)
  | '+' :: rest =>
    (parseDigits rest).bind (fun n =>
      if n ≤ 9223372036854775807 then some ((n : ℤ)) else none)
  | cs =>
    (parseDigits cs).bind (fun n =>
      if n ≤ 9223372036854775807 then some ((n : ℤ)) else none)

/-- Unsigned decimal float body: digits, optionally a dot and more digits. -/
def parseF64core (cs : List Char) : Option ℚ :=
  match cs.span (fun c => c != '.') with
  | (intPart, []) => (parseDigits intPart).map (fun n => (n : ℚ))
  | (intPart, _ :: fracPart) =>
    if intPart.isEmpty && fracPart.isEmpty then none
    else
      match (if intPart.isEmpty then some 0 else parseDigits intPart),
            (if fracPart.isEmpty then some 0 else parseDigits fracPart) with
      | some ip, some fp => some ((ip : ℚ) + (fp : ℚ) / ((10 : ℚ) ^ fracPart.length))
      | _, _ => none

/-- Model of Rust `str::parse::<f64>` on plain decimal literals: optional
sign then an unsigned decimal body (the exotic forms `inf`/`NaN`/exponents
are irrelevant to the data handled here and are not modelled). -/
def parseF64 (s : String) : Option ℚ :=
  match s.data with
  | [] => none
  | '-' :: rest => (parseF64core rest).map (fun q => -q)
  | '+' :: rest => parseF64core rest
  | cs => parseF64core cs

/-- Outcome of converting one raw field against a kind code: a panic
(failed `unwrap` or out-of-bounds `types[i]`), the `Unknown type` error,
or a converted cell. -/
inductive FieldResult where
  | panic : FieldResult
  | unknown : FieldResult
  | val : ColumnVal → FieldResult
deriving DecidableEq, Repr

/-- One field of a data record, per the `match types[i]` in `read_csv`:
kind 1 copies the text, kind 2 parses `i64` and tests nonzero, kind 3
parses `f64`, kind 4 parses `i64`; any other code is the error case, and
an out-of-range index or a failed parse `unwrap` panics. -/
def convertField (types : List ℕ) (i : ℕ) (elem : String) : FieldResult :=
  match types.get? i with
  | none => .panic
  | some 1 => .val (.One elem)
  | some 2 =>
    match parseI64 elem with
    | none => .panic
    | some n => .val (.Two (n != 0))
  | some 3 =>
    match parseF64 elem with
    | none => .panic
    | some q => .val (.Three q)
  | some 4 =>
    match parseI64 elem with
    | none => .panic
    | some n => .val (.Four n)
  | some _ => .unknown

/-- Outcome of converting one record into a row. -/
inductive RowResult where
  | panic : RowResult
  | unknown : RowResult
  | row : List ColumnVal → RowResult
deriving DecidableEq, Repr

/-- Converts the fields of one record left to right, starting at field
index `i`, mirroring `for (i, elem) in r.iter().enumerate()`. -/
def convertRowAux (types : List ℕ) (i : ℕ) : List String → RowResult
  | [] => .row []
  | f :: fs =>
    match convertField types i f with
    | .panic => .panic
    | .unknown => .unknown
    | .val v =>
      match convertRowAux types (i + 1) fs with
      | .panic => .panic
      | .unknown => .unknown
      | .row r => .row (v :: r)

/-- The record loop of `read_csv`: the first record's fields are pushed
onto `labels`; every later record is converted and pushed onto `rows`.
An unknown kind code returns the error immediately, with the receiver
keeping everything pushed so far; a panic (`none`) loses the state. -/
def readRecords (types : List ℕ) (df : DataFrame) (firstRow : Bool) :
    List (List String) → Option ((Except String Unit) × DataFrame)
  | [] => some (.ok (), df)
  | rec :: rest =>
    if firstRow then
      readRecords types { df with labels := df.labels ++ rec } false rest
    else
      match convertRowAux types 0 rec with
      | .panic => none
      | .unknown => some (.error "Unknown type", df)
      | .row r => readRecords types { df with rows := df.rows ++ [r] } false rest

/-- `DataFrame::read_csv`, consuming the already-split records: runs the
record loop and, only on success, performs the final
`self.types = types.clone()` assignment. -/
def read_csv (df : DataFrame) (records : List (List String)) (types : List ℕ) :
    Option ((Except String Unit) × DataFrame) :=
  match readRecords types df true records with
  | none => none
  | some (.error e, df2) => some (.error e, df2)
  | some (.ok _, df2) => some (.ok (), { df2 with types := types })

/-- `DataFrame::add_column`: on matching lengths the label and kind are
pushed and `vals[i]` is pushed onto row `i`; otherwise the error leaves
the receiver untouched. -/
def add_column (df : DataFrame) (label : String) (dtype : ℕ) (vals : List ColumnVal) :
    (Except String Unit) × DataFrame :=
  if df.rows.length = vals.length then
    (.ok (), ⟨df.labels ++ [label], df.types ++ [dtype],
              List.zipWith (fun row v => row ++ [v]) df.rows vals⟩)
  else
    (.error "Length does not match", df)

/-- `DataFrame::merge_frame`: when the kind-code lists coincide, `b`'s
rows are appended to `a`'s; otherwise the error leaves `a` untouched. -/
def merge_frame (a b : DataFrame) : (Except String Unit) × DataFrame :=
  if a.types = b.types then
    (.ok (), { a with rows := a.rows ++ b.rows })
  else
    (.error "Type does not match", a)

/-- The enumerate-and-collect loop of `find_columns`, keeping index `i`
of every own label that occurs in the requested list. -/
def find_columnsAux (labels : List String) (i : ℕ) : List String → List ℕ
  | [] => []
  | l :: ls =>
    if labels.contains l then i :: find_columnsAux labels (i + 1) ls
    else find_columnsAux labels (i + 1) ls

/-- `DataFrame::find_columns`: positions, in the frame's own column
order, of every schema column whose name appears in `labels` (the Rust
body always returns `Ok`, so the wrapper is dropped here). -/
def find_columns (df : DataFrame) (labels : List String) : List ℕ :=
  find_columnsAux labels 0 df.labels

/-- Extracts column `idx` from the row storage, panicking (`none`) on
any row too short, as `row[col_idx]` does. -/
def getColumn (idx : ℕ) : List (List ColumnVal) → Option (List ColumnVal)
  | [] => some []
  | row :: rest =>
    match row.get? idx with
    | none => none
    | some v => (getColumn idx rest).map (fun vs => v :: vs)

/-- The per-index loop of `restrict_columns`: reads label, kind and the
column data (any out-of-bounds index panics) and appends them to the
accumulating frame via `add_column`. -/
def restrictLoop (df : DataFrame) : List ℕ → DataFrame → Option (Except String DataFrame)
  | [], acc => some (.ok acc)
  | idx :: rest, acc =>
    match df.labels.get? idx, df.types.get? idx with
    | some label, some dtype =>
      match getColumn idx df.rows with
      | none => none
      | some coldata =>
        match add_column acc label dtype coldata with
        | (.error e, _) => some (.error e)
        | (.ok _, acc2) => restrictLoop df rest acc2
    | _, _ => none

/-- `DataFrame::restrict_columns`: resolves indices via `find_columns`;
with no match the fresh empty frame is returned, otherwise the row
storage is pre-sized with empty rows and the chosen columns are appended
one by one. -/
def restrict_columns (df : DataFrame) (labels : List String) :
    Option (Except String DataFrame) :=
  let data_find := find_columns df labels
  if data_find.isEmpty then some (.ok ⟨[], [], []⟩)
  else restrictLoop df data_find ⟨[], [], List.replicate df.rows.length []⟩

/-- The row loop of `filter`: keeps row `r` iff the predicate holds of
`r[idx]`, panicking on any row too short for the index. -/
def filterRows (idx : ℕ) (p : ColumnVal → Bool) : List (List ColumnVal) → Option (List (List ColumnVal))
  | [] => some []
  | row :: rest =>
    match row.get? idx with
    | none => none
    | some c => (filterRows idx p rest).map (fun rs => if p c then row :: rs else rs)

/-- `DataFrame::filter`: resolves the label through the permissive
`find_columns` and indexes `data[0]` — a panic when nothing matched —
then assigns the retained rows back into the receiver and also returns
them as a fresh frame.  Result: `(receiver after the call, returned frame)`. -/
def filter (df : DataFrame) (label : String) (operation : ColumnVal → Bool) :
    Option (DataFrame × DataFrame) :=
  match (find_columns df [label]).head? with
  | none => none
  | some idx =>
    match filterRows idx operation df.rows with
    | none => none
    | some included =>
      some ({ df with rows := included }, { df with rows := included })

/-- Model of `Iterator::position` over the label list. -/
def position (p : String → Bool) : List String → Option ℕ
  | [] => none
  | x :: xs => if p x then some 0 else (position p xs).map (· + 1)

/-- The strict index resolution of `column_op`: first match per label,
first failure aborting the whole collection with the source's message. -/
def resolveIndices (df : DataFrame) : List String → Except String (List ℕ)
  | [] => .ok []
  | label :: rest =>
    match position (fun h => h == label) df.labels with
    | none => .error ("column \x27" ++ label ++ "\x27 doesn\x27t exist")
    | some i => (resolveIndices df rest).map (fun is => i :: is)

/-- The inner row scan of `column_op` at one column index: floats are
taken as-is, integers widened, any other cell aborts with the
`Numeric data not found` error, and a short row panics. -/
def scanColumn (idx : ℕ) : List (List ColumnVal) → Option (Except String (List ℚ))
  | [] => some (.ok [])
  | row :: rest =>
    match row.get? idx with
    | none => none
    | some (.Three q) => (scanColumn idx rest).map (fun r => r.map (fun qs => q :: qs))
    | some (.Four n) => (scanColumn idx rest).map (fun r => r.map (fun qs => (n : ℚ) :: qs))
    | some _ => some (.error "Numeric data not found")

/-- The outer index loop of `column_op`, concatenating the per-column
scans in the order the indices were resolved. -/
def scanColumns (rows : List (List ColumnVal)) : List ℕ → Option (Except String (List ℚ))
  | [] => some (.ok [])
  | idx :: rest =>
    match scanColumn idx rows with
    | none => none
    | some (.error e) => some (.error e)
    | some (.ok qs) =>
      match scanColumns rows rest with
      | none => none
      | some (.error e) => some (.error e)
      | some (.ok qs2) => some (.ok (qs ++ qs2))

/-- `DataFrame::column_op` (`&self`): strict resolution of every label,
then the column-major numeric collection. -/
def column_op (df : DataFrame) (labels : List String) : Option (Except String (List ℚ)) :=
  match resolveIndices df labels with
  | .error e => some (.error e)
  | .ok indices => scanColumns df.rows indices

/-- `DataFrame::average` (`&mut self`, though its body never assigns to
the receiver): `column_op` on the single label, the `No data found`
check, then sum over count.  Result pairs the value with the receiver's
state after the call. -/
def average (df : DataFrame) (label : String) : Option ((Except String ℚ) × DataFrame) :=
  match column_op df [label] with
  | none => none
  | some (.error e) => some (.error e, df)
  | some (.ok vals) =>
    if vals.isEmpty then some (.error "No data found", df)
    else some (.ok (vals.sum / (vals.length : ℚ)), df)

/-- `DataFrame::add_rows` (`&self`): the two single-label collections,
the length check, then pairwise sums. -/
def add_rows (df : DataFrame) (col1 col2 : String) : Option (Except String (List ℚ)) :=
  match column_op df [col1] with
  | none => none
  | some (.error e) => some (.error e)
  | some (.ok v1) =>
    match column_op df [col2] with
    | none => none
    | some (.error e) => some (.error e)
    | some (.ok v2) =>
      if v1.length ≠ v2.length then some (.error "Lengths don\x27t match")
      else some (.ok (List.zipWith (· + ·) v1 v2))

/-- State-passing form of the `&self` method `column_op`: a shared
borrow cannot mutate the receiver, so the post-state is the receiver. -/
def column_opSt (df : DataFrame) (labels : List String) :
    (Option (Except String (List ℚ))) × DataFrame :=
  (column_op df labels, df)

/-- State-passing form of the `&self` method `add_rows`. -/
def add_rowsSt (df : DataFrame) (col1 col2 : String) :
    (Option (Except String (List ℚ))) × DataFrame :=
  (add_rows df col1 col2, df)

/-- Does a cell's variant match a schema kind code? -/
def kindMatches : ℕ → ColumnVal → Bool
  | 1, .One _ => true
  | 2, .Two _ => true
  | 3, .Three _ => true
  | 4, .Four _ => true
  | _, _ => false

/-- One row is shape-compatible with the kind-code list: same length and
a matching variant at every position. -/
def rowOK (types : List ℕ) (row : List ColumnVal) : Bool :=
  row.length == types.length && (types.zip row).all (fun p => kindMatches p.1 p.2)

/-- The frame shape invariant of the spec: kind codes and labels aligned,
and every row shape-compatible with the schema. -/
def shapeOK (df : DataFrame) : Bool :=
  df.types.length == df.labels.length && df.rows.all (rowOK df.types)

/-- A cell `column_op` accepts: a float or an integer. -/
def isNumeric : ColumnVal → Bool
  | .Three _ => true
  | .Four _ => true
  | _ => false

/-- The numeric value `column_op` extracts from a float or integer cell
(junk value 0 elsewhere; only used under an `isNumeric` hypothesis). -/
def numVal : ColumnVal → ℚ
  | .Three q => q
  | .Four n => (n : ℚ)
  | _ => 0

/-- A successful index lookup yields the `getD` value, for any default. -/
theorem get?_eq_getD {α : Type} (l : List α) (i : ℕ) (d : α) (h : i < l.length) :
    l.get? i = some (l.getD i d) := by
  rw [List.get?_eq_get h, List.getD_eq_get l d h]

/-- The success branch of `add_column`, as an unconditional equation. -/
theorem add_column_ok (df : DataFrame) (label : String) (dtype : ℕ)
    (vals : List ColumnVal) (h : df.rows.length = vals.length) :
    add_column df label dtype vals =
      (.ok (), ⟨df.labels ++ [label], df.types ++ [dtype],
                List.zipWith (fun row v => row ++ [v]) df.rows vals⟩) := by
  unfold add_column
  rw [if_pos h]

/-- Pushing a derived value onto each derived row, fused into one map. -/
theorem zipWith_push_map (g : List ColumnVal → List ColumnVal)
    (h : List ColumnVal → ColumnVal) :
    ∀ l : List (List ColumnVal),
      List.zipWith (fun row v => row ++ [v]) (l.map g) (l.map h) =
        l.map (fun x => g x ++ [h x])
  | [] => rfl
  | a :: tl => by simp [zipWith_push_map g h tl]

/-- Reading every position of a list back, in order, reproduces it. -/
theorem map_getD_range {α : Type} : ∀ (l : List α) (d : α),
    (List.range l.length).map (fun i => l.getD i d) = l
  | [], _ => rfl
  | a :: tl, d => by
    rw [List.length_cons, List.range_succ_eq_map, List.map_cons, List.map_map]
    congr 1
    conv_rhs => rw [← map_getD_range tl d]
    apply List.map_congr_left
    intro i _
    simp [Function.comp, Nat.succ_eq_add_one, List.getD_cons_succ]

/-- A constant-valued map is a `replicate`. -/
theorem map_fun_nil (l : List (List ColumnVal)) :
    l.map (fun _ => ([] : List ColumnVal)) = List.replicate l.length [] := by
  induction l with
  | nil => rfl
  | cons a tl ih => simp [List.replicate_succ, ih]

/-- When every own label is contained in the request, `find_columns`
keeps every index, in order. -/
theorem find_columnsAux_all (L : List String) :
    ∀ (ls : List String) (i : ℕ), (∀ x ∈ ls, L.contains x = true) →
      find_columnsAux L i ls = List.range' i ls.length
  | [], _, _ => rfl
  | l :: tl, i, h => by
    unfold find_columnsAux
    rw [if_pos (h l (List.mem_cons_self l tl))]
    rw [find_columnsAux_all L tl (i + 1) (fun x hx => h x (List.mem_cons_of_mem l hx))]
    rw [List.length_cons, List.range'_succ]

/-- Column extraction succeeds and is the per-row `getD` when the index
is in range for every row. -/
theorem getColumn_eq (i : ℕ) : ∀ (rows : List (List ColumnVal)),
    (∀ r ∈ rows, i < r.length) →
    getColumn i rows = some (rows.map (fun r => r.getD i (.One "")))
  | [], _ => rfl
  | row :: rest, h => by
    unfold getColumn
    rw [get?_eq_getD row i (.One "") (h row (List.mem_cons_self row rest))]
    rw [getColumn_eq i rest (fun r hr => h r (List.mem_cons_of_mem row hr))]
    rfl

/-- The `restrict_columns` loop over in-range indices: starting from an
accumulator whose rows are derived rowwise from the source rows, it
appends the label, kind and cells of each index in turn. -/
theorem restrictLoop_spec (df : DataFrame)
    (htypes : df.types.length = df.labels.length)
    (hrows : ∀ row ∈ df.rows, row.length = df.labels.length) :
    ∀ (idxs : List ℕ) (labs : List String) (tys : List ℕ)
      (g : List ColumnVal → List ColumnVal),
      (∀ i ∈ idxs, i < df.labels.length) →
      restrictLoop df idxs ⟨labs, tys, df.rows.map g⟩ =
        some (.ok ⟨labs ++ idxs.map (fun i => df.labels.getD i ""),
                   tys ++ idxs.map (fun i => df.types.getD i 0),
                   df.rows.map (fun r => g r ++ idxs.map (fun i => r.getD i (.One "")))⟩)
  | [], labs, tys, g, _ => by simp [restrictLoop]
  | idx :: rest, labs, tys, g, hb => by
    have hidx : idx < df.labels.length := hb idx (List.mem_cons_self _ _)
    have hidx2 : idx < df.types.length := by rw [htypes]; exact hidx
    have hbnd : ∀ r ∈ df.rows, idx < r.length := fun r hr => by
      rw [hrows r hr]; exact hidx
    have hbrest : ∀ i ∈ rest, i < df.labels.length :=
      fun i hi => hb i (List.mem_cons_of_mem _ hi)
    have hlen : (df.rows.map g).length =
        (df.rows.map (fun r => r.getD idx (.One ""))).length := by
      simp
    simp only [restrictLoop, get?_eq_getD df.labels idx "" hidx,
      get?_eq_getD df.types idx 0 hidx2, getColumn_eq idx df.rows hbnd,
      add_column_ok ⟨labs, tys, df.rows.map g⟩ (df.labels.getD idx "")
        (df.types.getD idx 0) (df.rows.map (fun r => r.getD idx (.One ""))) hlen,
      zipWith_push_map g (fun r => r.getD idx (.One "")) df.rows,
      restrictLoop_spec df htypes hrows rest (labs ++ [df.labels.getD idx ""])
        (tys ++ [df.types.getD idx 0]) (fun x => g x ++ [x.getD idx (.One "")]) hbrest]
    simp [List.append_assoc]

/-- C7 counterexample: the claim quantifies over every frame, but for a
zero-column frame that still holds (empty) rows — a frame satisfying the
shape invariant — projecting onto the empty label list (the only
permutation of its labels) returns the fresh empty frame, dropping the
rows, so the result does not carry identical rows.  -/
theorem C7_zero_column_cex :
    shapeOK ⟨[], [], [[]]⟩ = true ∧
    List.Perm ([] : List String) (DataFrame.labels ⟨[], [], [[]]⟩) ∧
    restrict_columns ⟨[], [], [[]]⟩ [] = some (.ok ⟨[], [], []⟩) ∧
    (⟨[], [], []⟩ : DataFrame) ≠ ⟨[], [], [[]]⟩ := by decide

/-- C7 (amended): for every well-shaped frame with at least one column,
`restrict_columns` on any permutation of all of its labels returns the
frame itself — same column set, columns in the frame's original order,
and identical row values; a zero-column frame instead yields the empty
frame. -/
theorem C7_restrict_columns_roundtrip (df : DataFrame) (L : List String)
    (hperm : List.Perm L df.labels)
    (htypes : df.types.length = df.labels.length)
    (hrows : ∀ row ∈ df.rows, row.length = df.labels.length)
    (hne : df.labels ≠ []) :
    restrict_columns df L = some (.ok df) := by
  have hcont : ∀ x ∈ df.labels, L.contains x = true := fun x hx =>
    List.elem_iff.mpr (hperm.mem_iff.mpr hx)
  have hfind : find_columns df L = List.range df.labels.length := by
    rw [List.range_eq_range']
    exact find_columnsAux_all L df.labels 0 hcont
  have hn0 : df.labels.length ≠ 0 := fun h => hne (List.length_eq_zero.mp h)
  have hbnd : ∀ i ∈ List.range df.labels.length, i < df.labels.length :=
    fun i hi => List.mem_range.mp hi
  simp only [restrict_columns, hfind]
  rw [if_neg (by simp [List.isEmpty_iff, List.range_eq_nil, hn0])]
  rw [← map_fun_nil df.rows]
  rw [restrictLoop_spec df htypes hrows (List.range df.labels.length) [] []
    (fun _ => []) hbnd]
  simp only [List.nil_append]
  have hl : (List.range df.labels.length).map (fun i => df.labels.getD i "") =
      df.labels := map_getD_range df.labels ""
  have ht : (List.range df.labels.length).map (fun i => df.types.getD i 0) =
      df.types := by
    rw [← htypes]
    exact map_getD_range df.types 0
  have hrws : df.rows.map
      (fun r => (List.range df.labels.length).map (fun i => r.getD i (.One ""))) =
      df.rows := by
    have hpt : ∀ r ∈ df.rows,
        (List.range df.labels.length).map (fun i => r.getD i (.One "")) = r := by
      intro r hr
      rw [← hrows r hr]
      exact map_getD_range r (.One "")
    rw [List.map_congr_left hpt, List.map_id']
  rw [hl, ht, hrws]

/-- Witness for C7 at a concrete two-column frame and a permuted label
list: the projection returns the frame unchanged. -/
theorem C7_restrict_columns_roundtrip_witness :
    restrict_columns ⟨["A", "B"], [1, 4], [[.One "x", .Four 1]]⟩ ["B", "A"] =
      some (.ok ⟨["A", "B"], [1, 4], [[.One "x", .Four 1]]⟩) :=
  C7_restrict_columns_roundtrip ⟨["A", "B"], [1, 4], [[.One "x", .Four 1]]⟩
    ["B", "A"] (by decide) (by decide) (by decide) (by decide)

/-- A successful `position` lookup is in range. -/
theorem position_lt (p : String → Bool) : ∀ (l : List String) (i : ℕ),
    position p l = some i → i < l.length
  | [], i, h => by simp [position] at h
  | x :: xs, i, h => by
    unfold position at h
    split at h
    · injection h with h2
      rw [← h2]
      simp
    · cases hq : position p xs with
      | none => rw [hq] at h; simp at h
      | some j =>
        rw [hq] at h
        simp at h
        rw [← h, List.length_cons]
        exact Nat.succ_lt_succ (position_lt p xs j hq)

/-- Every index produced by the strict resolution is in range. -/
theorem resolveIndices_bounds (df : DataFrame) : ∀ (labels : List String) (idxs : List ℕ),
    resolveIndices df labels = .ok idxs → ∀ i ∈ idxs, i < df.labels.length
  | [], idxs, h => by
    unfold resolveIndices at h
    injection h with h2
    rw [← h2]
    intro i hi
    simp at hi
  | label :: rest, idxs, h => by
    unfold resolveIndices at h
    cases hp : position (fun x => x == label) df.labels with
    | none => rw [hp] at h; exact Except.noConfusion h
    | some j =>
      rw [hp] at h
      cases hr : resolveIndices df rest with
      | error e => rw [hr] at h; exact Except.noConfusion h
      | ok js =>
        rw [hr] at h
        injection h with h2
        rw [← h2]
        intro i hi
        rcases List.mem_cons.mp hi with heq | hin
        · rw [heq]
          exact position_lt _ _ _ hp
        · exact resolveIndices_bounds df rest js hr i hin

/-- A column scan over in-range, all-numeric cells collects the numeric
values row by row, top to bottom. -/
theorem scanColumn_ok (i : ℕ) : ∀ (rows : List (List ColumnVal)),
    (∀ r ∈ rows, i < r.length) →
    (∀ r ∈ rows, isNumeric (r.getD i (.One "")) = true) →
    scanColumn i rows = some (.ok (rows.map (fun r => numVal (r.getD i (.One "")))))
  | [], _, _ => rfl
  | row :: rest, hb, hn => by
    have h1 : row.get? i = some (row.getD i (.One "")) :=
      get?_eq_getD row i _ (hb row (List.mem_cons_self _ _))
    have ih := scanColumn_ok i rest (fun r hr => hb r (List.mem_cons_of_mem _ hr))
      (fun r hr => hn r (List.mem_cons_of_mem _ hr))
    have hnum := hn row (List.mem_cons_self _ _)
    unfold scanColumn
    rw [h1]
    simp only [List.map_cons]
    cases hc : row.getD i (.One "") with
    | One s => rw [hc] at hnum; simp [isNumeric] at hnum
    | Two v => rw [hc] at hnum; simp [isNumeric] at hnum
    | Three q => rw [ih]; rfl
    | Four n => rw [ih]; rfl

/-- A column scan that touches any text or boolean cell in range fails
with the source's non-numeric error. -/
theorem scanColumn_err (i : ℕ) : ∀ (rows : List (List ColumnVal)),
    (∀ r ∈ rows, i < r.length) →
    (∃ r ∈ rows, isNumeric (r.getD i (.One "")) = false) →
    scanColumn i rows = some (.error "Numeric data not found")
  | [], _, hbad => by simp at hbad
  | row :: rest, hb, hbad => by
    have h1 : row.get? i = some (row.getD i (.One "")) :=
      get?_eq_getD row i _ (hb row (List.mem_cons_self _ _))
    unfold scanColumn
    rw [h1]
    cases hc : row.getD i (.One "") with
    | One s => rfl
    | Two v => rfl
    | Three q =>
      have hrest : ∃ r ∈ rest, isNumeric (r.getD i (.One "")) = false := by
        obtain ⟨r, hr, hbadr⟩ := hbad
        rcases List.mem_cons.mp hr with heq | hin
        · rw [heq, hc] at hbadr
          simp [isNumeric] at hbadr
        · exact ⟨r, hin, hbadr⟩
      rw [scanColumn_err i rest (fun r hr => hb r (List.mem_cons_of_mem _ hr)) hrest]
      rfl
    | Four n =>
      have hrest : ∃ r ∈ rest, isNumeric (r.getD i (.One "")) = false := by
        obtain ⟨r, hr, hbadr⟩ := hbad
        rcases List.mem_cons.mp hr with heq | hin
        · rw [heq, hc] at hbadr
          simp [isNumeric] at hbadr
        · exact ⟨r, hin, hbadr⟩
      rw [scanColumn_err i rest (fun r hr => hb r (List.mem_cons_of_mem _ hr)) hrest]
      rfl

/-- The outer scan over in-range, all-numeric columns concatenates the
per-column collections in index order. -/
theorem scanColumns_ok (rows : List (List ColumnVal)) : ∀ (idxs : List ℕ),
    (∀ i ∈ idxs, ∀ r ∈ rows, i < r.length) →
    (∀ i ∈ idxs, ∀ r ∈ rows, isNumeric (r.getD i (.One "")) = true) →
    scanColumns rows idxs =
      some (.ok ((idxs.map
        (fun i => rows.map (fun r => numVal (r.getD i (.One ""))))).flatten))
  | [], _, _ => by simp [scanColumns]
  | idx :: rest, hb, hn => by
    unfold scanColumns
    rw [scanColumn_ok idx rows (hb idx (List.mem_cons_self _ _))
      (hn idx (List.mem_cons_self _ _))]
    rw [scanColumns_ok rows rest (fun i hi => hb i (List.mem_cons_of_mem _ hi))
      (fun i hi => hn i (List.mem_cons_of_mem _ hi))]
    simp

/-- The outer scan fails with the non-numeric error as soon as any
requested column holds a text or boolean cell. -/
theorem scanColumns_err (rows : List (List ColumnVal)) : ∀ (idxs : List ℕ),
    (∀ i ∈ idxs, ∀ r ∈ rows, i < r.length) →
    (∃ i ∈ idxs, ∃ r ∈ rows, isNumeric (r.getD i (.One "")) = false) →
    scanColumns rows idxs = some (.error "Numeric data not found")
  | [], _, hbad => by simp at hbad
  | idx :: rest, hb, hbad => by
    unfold scanColumns
    by_cases hall : ∀ r ∈ rows, isNumeric (r.getD idx (.One "")) = true
    · rw [scanColumn_ok idx rows (hb idx (List.mem_cons_self _ _)) hall]
      have hrest : ∃ i ∈ rest, ∃ r ∈ rows, isNumeric (r.getD i (.One "")) = false := by
        obtain ⟨i, hi, r, hr, hbadr⟩ := hbad
        rcases List.mem_cons.mp hi with heq | hin
        · rw [heq] at hbadr
          rw [hall r hr] at hbadr
          exact absurd hbadr (by simp)
        · exact ⟨i, hin, r, hr, hbadr⟩
      rw [scanColumns_err rows rest (fun i hi => hb i (List.mem_cons_of_mem _ hi)) hrest]
    · push_neg at hall
      obtain ⟨r, hr, hbadr⟩ := hall
      rw [scanColumn_err idx rows (hb idx (List.mem_cons_self _ _))
        ⟨r, hr, by simpa using hbadr⟩]

/-- C8: with every requested label strictly resolving and a well-shaped
row storage, `column_op` returns the concatenation, across the labels in
the order given, of each resolved column's per-row numeric values read
top to bottom (integers widened); and if any cell of a requested column
is text or boolean, the whole operation fails with the non-numeric
error. -/
theorem C8_column_op_column_major (df : DataFrame) (labels : List String)
    (idxs : List ℕ) (hres : resolveIndices df labels = .ok idxs)
    (hrows : ∀ row ∈ df.rows, row.length = df.labels.length) :
    ((∀ i ∈ idxs, ∀ row ∈ df.rows, isNumeric (row.getD i (.One "")) = true) →
      column_op df labels =
        some (.ok ((idxs.map
          (fun i => df.rows.map (fun r => numVal (r.getD i (.One ""))))).flatten))) ∧
    ((∃ i ∈ idxs, ∃ row ∈ df.rows, isNumeric (row.getD i (.One "")) = false) →
      column_op df labels = some (.error "Numeric data not found")) := by
  have hb : ∀ i ∈ idxs, ∀ r ∈ df.rows, i < r.length := by
    intro i hi r hr
    rw [hrows r hr]
    exact resolveIndices_bounds df labels idxs hres i hi
  constructor
  · intro hn
    unfold column_op
    rw [hres]
    exact scanColumns_ok df.rows idxs hb hn
  · intro hbad
    unfold column_op
    rw [hres]
    exact scanColumns_err df.rows idxs hb hbad

/-- Witness for C8 at concrete inputs: requesting `["B","A"]` returns
all of column B's values then all of column A's (column-major), and a
text cell in a requested column fails with the non-numeric error. -/
theorem C8_column_op_column_major_witness :
    column_op ⟨["A", "B"], [3, 3], [[.Three 5, .Three 2], [.Three 7, .Three 4]]⟩
      ["B", "A"] = some (.ok [2, 4, 5, 7]) ∧
    column_op ⟨["A", "B"], [1, 3], [[.One "x", .Three 5]]⟩ ["A"] =
      some (.error "Numeric data not found") :=
  ⟨(C8_column_op_column_major
      ⟨["A", "B"], [3, 3], [[.Three 5, .Three 2], [.Three 7, .Three 4]]⟩
      ["B", "A"] [1, 0] (by decide) (by decide)).1 (by decide),
   (C8_column_op_column_major ⟨["A", "B"], [1, 3], [[.One "x", .Three 5]]⟩
      ["A"] [0] (by decide) (by decide)).2 (by decide)⟩

/-- C9 counterexample: on a frame whose single column resolves and has a
(text) row, `average` neither fails with the no-data error nor returns a
mean — it fails with the non-numeric error — refuting the claim's
"otherwise returns the arithmetic mean" for every resolving label. -/
theorem C9_average_notnumeric_cex :
    position (fun h => h == "A") (DataFrame.labels ⟨["A"], [1], [[.One "x"]]⟩) =
      some 0 ∧
    DataFrame.rows ⟨["A"], [1], [[.One "x"]]⟩ ≠ [] ∧
    average ⟨["A"], [1], [[.One "x"]]⟩ "A" =
      some (.error "Numeric data not found", ⟨["A"], [1], [[.One "x"]]⟩) := by decide

/-- C9 (amended): for every frame and label resolving to a column whose
in-range cells are all float or integer, `average` fails with the
no-data error exactly when the frame has zero rows, and otherwise
returns the arithmetic mean — the column's value sum divided by the row
count — leaving the receiver unchanged; a text or boolean cell instead
fails the operation with the non-numeric error (see the counterexample). -/
theorem C9_average_mean (df : DataFrame) (label : String) (i : ℕ)
    (hres : position (fun h => h == label) df.labels = some i)
    (hrows : ∀ row ∈ df.rows, row.length = df.labels.length)
    (hnum : ∀ row ∈ df.rows, isNumeric (row.getD i (.One "")) = true) :
    (df.rows = [] → average df label = some (.error "No data found", df)) ∧
    (df.rows ≠ [] →
      average df label =
        some (.ok ((df.rows.map (fun r => numVal (r.getD i (.One "")))).sum /
          (df.rows.length : ℚ)), df)) := by
  have hres1 : resolveIndices df [label] = .ok [i] := by
    unfold resolveIndices
    rw [hres]
    rfl
  have hb : ∀ r ∈ df.rows, i < r.length := by
    intro r hr
    rw [hrows r hr]
    exact position_lt _ _ _ hres
  have hco : column_op df [label] =
      some (.ok (df.rows.map (fun r => numVal (r.getD i (.One ""))))) := by
    unfold column_op
    rw [hres1]
    unfold scanColumns
    rw [scanColumn_ok i df.rows hb hnum]
    simp [scanColumns]
  constructor
  · intro hemp
    unfold average
    rw [hco, hemp]
    simp
  · intro hne
    have hie : (df.rows.map (fun r => numVal (r.getD i (.One "")))).isEmpty = false := by
      simp [List.isEmpty_iff, hne]
    unfold average
    rw [hco]
    simp only [hie]
    simp

/-- Witness for C9 at concrete inputs: the mean of the two-value float
column is 3/2, and the zero-row frame fails with the no-data error. -/
theorem C9_average_mean_witness :
    average ⟨["A"], [3], [[.Three 1], [.Three 2]]⟩ "A" =
      some (.ok (3 / 2), ⟨["A"], [3], [[.Three 1], [.Three 2]]⟩) ∧
    average ⟨["A"], [3], []⟩ "A" = some (.error "No data found", ⟨["A"], [3], []⟩) := by
  constructor
  · have h := (C9_average_mean ⟨["A"], [3], [[.Three 1], [.Three 2]]⟩ "A" 0
      (by decide) (by decide) (by decide)).2 (by decide)
    rw [h]
    norm_num [numVal]
  · exact (C9_average_mean ⟨["A"], [3], []⟩ "A" 0
      (by decide) (by decide) (by decide)).1 rfl

/-- C1: the claim says a `filter` on a label matching no schema column
fails with a `ColumnNotFound` error value.  The code instead panics:
`find_columns` returns an empty index list and `data[0]` is an
out-of-bounds index.  At the concrete one-column frame below, filtering
on the absent label `Z` is a panic (`none`), not an error value. -/
theorem C1_filter_missing_label_panics :
    filter ⟨["A"], [1], [[.One "x"]]⟩ "Z" (fun _ => true) = none := by decide

/-- C2: the claim says every frame produced by a core operation — in
particular by ingestion from records with varying field counts —
satisfies the shape invariant.  The code's lenient reader stores a short
data record as a short row: reading records `[["A","B"], ["x"]]` against
kinds `[1,4]` succeeds and yields a two-column frame whose only row has
length one, violating the invariant. -/
theorem C2_read_csv_breaks_shape :
    read_csv ⟨[], [], []⟩ [["A", "B"], ["x"]] [1, 4] =
      some (.ok (), ⟨["A", "B"], [1, 4], [[.One "x"]]⟩) ∧
    shapeOK ⟨["A", "B"], [1, 4], [[.One "x"]]⟩ = false := by decide

/-- C5: the claim says ingestion of a text field that cannot be
converted to its declared kind (2, 3 or 4) returns a `ParseError` value
and never aborts.  The code calls `.unwrap()` on the failed parse and
panics: the record `["abc"]` against each of kinds 2, 3 and 4 is a panic
(`none`), not an error value. -/
theorem C5_read_csv_parse_panics :
    read_csv ⟨[], [], []⟩ [["H"], ["abc"]] [2] = none ∧
    read_csv ⟨[], [], []⟩ [["H"], ["abc"]] [3] = none ∧
    read_csv ⟨[], [], []⟩ [["H"], ["abc"]] [4] = none := by decide

/-- C6: the claim says a failed ingestion leaves no partial frame.  The
code mutates the receiver as it reads: on the unknown kind code 5, hit
in the third record, the returned error leaves the receiver holding the
header labels and the previously converted row. -/
theorem C6_read_csv_partial_frame :
    read_csv ⟨[], [], []⟩ [["A", "B"], ["x"], ["y", "1"]] [1, 5] =
      some (.error "Unknown type", ⟨["A", "B"], [], [[.One "x"]]⟩) ∧
    (["A", "B"] : List String) ≠ [] ∧
    ([[ColumnVal.One "x"]] : List (List ColumnVal)) ≠ [] := by decide

/-- C3: `add_column` with a value vector whose length differs from the
row count fails with the length-mismatch error and leaves the receiver's
labels, types and rows exactly as before; with equal lengths it appends
the label and kind to the schema and `vals[i]` to row `i`, preserving
row order. -/
theorem C3_add_column_atomic (df : DataFrame) (label : String) (dtype : ℕ)
    (vals : List ColumnVal) :
    (vals.length ≠ df.rows.length →
      add_column df label dtype vals = (.error "Length does not match", df)) ∧
    (vals.length = df.rows.length →
      add_column df label dtype vals =
        (.ok (), ⟨df.labels ++ [label], df.types ++ [dtype],
                  List.zipWith (fun row v => row ++ [v]) df.rows vals⟩)) := by
  constructor
  · intro h
    unfold add_column
    rw [if_neg (fun hh => h hh.symm)]
  · intro h
    unfold add_column
    rw [if_pos h.symm]

/-- Witness for C3 at concrete inputs: a matching append succeeds with
the value placed on the single row, and a mismatched one fails leaving
the frame untouched. -/
theorem C3_add_column_atomic_witness :
    add_column ⟨["A"], [1], [[.One "x"]]⟩ "B" 4 [.Four 7] =
      (.ok (), ⟨["A", "B"], [1, 4], [[.One "x", .Four 7]]⟩) ∧
    add_column ⟨["A"], [1], [[.One "x"]]⟩ "B" 4 [] =
      (.error "Length does not match", ⟨["A"], [1], [[.One "x"]]⟩) :=
  ⟨(C3_add_column_atomic ⟨["A"], [1], [[.One "x"]]⟩ "B" 4 [.Four 7]).2 rfl,
   (C3_add_column_atomic ⟨["A"], [1], [[.One "x"]]⟩ "B" 4 []).1 (by decide)⟩

/-- C4: `merge_frame` succeeds exactly when the kind-code sequences
agree (labels are never compared), in which case the result keeps `a`'s
schema and concatenates `a`'s rows with `b`'s in order, the row count
adding up; on mismatch the error leaves `a` untouched. -/
theorem C4_merge_frame_spec (a b : DataFrame) :
    (a.types = b.types →
      merge_frame a b = (.ok (), ⟨a.labels, a.types, a.rows ++ b.rows⟩) ∧
      (a.rows ++ b.rows).length = a.rows.length + b.rows.length) ∧
    (a.types ≠ b.types → merge_frame a b = (.error "Type does not match", a)) := by
  constructor
  · intro h
    refine ⟨?_, List.length_append _ _⟩
    unfold merge_frame
    rw [if_pos h]
  · intro h
    unfold merge_frame
    rw [if_neg h]

/-- Witness for C4 at concrete inputs: frames with equal kind lists but
different labels merge with rows concatenated in order; frames with
different kind lists fail and move no rows. -/
theorem C4_merge_frame_spec_witness :
    merge_frame ⟨["A"], [4], [[.Four 1]]⟩ ⟨["B"], [4], [[.Four 2]]⟩ =
      (.ok (), ⟨["A"], [4], [[.Four 1], [.Four 2]]⟩) ∧
    merge_frame ⟨["A"], [4], [[.Four 1]]⟩ ⟨["B"], [3], []⟩ =
      (.error "Type does not match", ⟨["A"], [4], [[.Four 1]]⟩) :=
  ⟨((C4_merge_frame_spec ⟨["A"], [4], [[.Four 1]]⟩ ⟨["B"], [4], [[.Four 2]]⟩).1 rfl).1,
   (C4_merge_frame_spec ⟨["A"], [4], [[.Four 1]]⟩ ⟨["B"], [3], []⟩).2 (by decide)⟩

/-- C10: the read-style operations `column_op`, `average` and `add_rows`
leave the receiver unchanged — `average` despite its `&mut` receiver —
whereas `filter` replaces the receiver's row storage with the retained
subset (shown both in general, where the post-state equals the returned
frame with schema preserved, and on a concrete frame it genuinely
shrinks). -/
theorem C10_read_ops_pure (df : DataFrame) (l a b : String) (ls : List String)
    (p : ColumnVal → Bool) :
    (∀ r post, average df l = some (r, post) → post = df) ∧
    (column_opSt df ls).2 = df ∧
    (add_rowsSt df a b).2 = df ∧
    (∀ post ret, filter df l p = some (post, ret) →
      post = ret ∧ post.labels = df.labels ∧ post.types = df.types) ∧
    filter ⟨["A"], [2], [[.Two true], [.Two false]]⟩ "A" (fun c => c == ColumnVal.Two true) =
      some (⟨["A"], [2], [[.Two true]]⟩, ⟨["A"], [2], [[.Two true]]⟩) ∧
    (⟨["A"], [2], [[.Two true]]⟩ : DataFrame) ≠ ⟨["A"], [2], [[.Two true], [.Two false]]⟩ := by
  refine ⟨?_, rfl, rfl, ?_, by decide, by decide⟩
  · intro r post h
    unfold average at h
    split at h
    · exact Option.noConfusion h
    · injection h with h2
      injection h2 with h3 h4
      exact h4.symm
    · split at h
      · injection h with h2
        injection h2 with h3 h4
        exact h4.symm
      · injection h with h2
        injection h2 with h3 h4
        exact h4.symm
  · intro post ret h
    unfold filter at h
    split at h
    · exact Option.noConfusion h
    · split at h
      · exact Option.noConfusion h
      · injection h with h2
        injection h2 with ha hb
        subst ha
        subst hb
        exact ⟨rfl, rfl, rfl⟩

/-- Witness for C10 at concrete inputs: a concrete `average` call leaves
the receiver equal to itself, and the concrete `filter` application
instantiates the mutation description. -/
theorem C10_read_ops_pure_witness :
    ((⟨["A"], [1], [[ColumnVal.One "x"]]⟩ : DataFrame) = ⟨["A"], [1], [[.One "x"]]⟩) ∧
    ((⟨["A"], [2], [[ColumnVal.Two true]]⟩ : DataFrame) = ⟨["A"], [2], [[.Two true]]⟩ ∧
      DataFrame.labels ⟨["A"], [2], [[.Two true]]⟩ = ["A"] ∧
      DataFrame.types ⟨["A"], [2], [[.Two true]]⟩ = [2]) :=
  ⟨(C10_read_ops_pure ⟨["A"], [1], [[.One "x"]]⟩ "A" "A" "A" ["A"] (fun _ => true)).1
      (Except.error "Numeric data not found") ⟨["A"], [1], [[.One "x"]]⟩ (by decide),
   (C10_read_ops_pure ⟨["A"], [2], [[.Two true], [.Two false]]⟩ "A" "A" "A" ["A"]
      (fun c => c == ColumnVal.Two true)).2.2.2.1 ⟨["A"], [2], [[.Two true]]⟩
      ⟨["A"], [2], [[.Two true]]⟩ (by decide)⟩

end Pandas
